import Mathlib

/-
Verification development for the gridformat format-writing pipeline.

The definitions below are shallow embeddings of the C++ sources:
  * gridformat/encoding.hpp and gridformat/vtk/attributes.hpp
    (encoder variants, VTK attribute names, data-format name resolution),
  * gridformat/traits/cgal.hpp (traits for CGAL triangulations),
  * gridformat/traits/dune.hpp (traits for Dune grid views, YaspGrid
    structured-grid traits, and the DuneLagrangeMesh),
  * test/api/test_generic_parallel_writer.cpp (parallel reference scenario).

External libraries (CGAL, Dune) are modelled by structures whose fields
stand for the library calls made by the sources; documented library
contracts appear as hypotheses of the theorems, never baked silently
into the repository-side definitions.
-/

namespace GridFormat

/-- The encoder variants of `GridFormat::Encoding` (encoding.hpp):
Ascii, Base64 and RawBinary. -/
inductive Encoder where
  | ascii
  | base64
  | rawBinary
deriving DecidableEq, Repr

/-- The two VTK data placements, `DataFormat::Inlined` and `DataFormat::Appended`. -/
inductive DataFormat where
  | inlined
  | appended
deriving DecidableEq, Repr

/-- Errors thrown by the embedded code paths: `ValueError` and `NotImplemented`. -/
inductive GFError where
  | valueError (msg : String)
  | notImplemented (msg : String)
deriving DecidableEq, Repr

/-- Runtime description of a scalar type, mirroring the `DynamicPrecision`
interface used by `attribute_name`: integral flag, signedness, byte width. -/
structure DynamicPrecision where
  is_integral : Bool
  is_signed : Bool
  size_in_bytes : Nat
deriving DecidableEq, Repr

namespace VTK

/-- Embedding of `VTK::attribute_name(const DynamicPrecision&)`:
prefix "Int"/"UInt"/"Float" chosen from integral/signed flags, followed by
the decimal rendering of `size_in_bytes()*8`. -/
def attribute_name (prec : DynamicPrecision) : String :=
  (if prec.is_integral then (if prec.is_signed then "Int" else "UInt") else "Float")
    ++ Nat.repr (prec.size_in_bytes * 8)

/-- Embedding of `VTK::attribute_name` on encoder variants:
"ascii", "base64", "raw". -/
def encoder_attribute_name : Encoder → String
  | .ascii => "ascii"
  | .base64 => "base64"
  | .rawBinary => "raw"

/-- The `format_name` string chosen inside the fallback `data_format_name`
overload ("appended" or "inlined"). -/
def fallback_format_name : DataFormat → String
  | .appended => "appended"
  | .inlined => "inlined"

/-- The `other_format_name` string chosen inside the fallback
`data_format_name` overload. -/
def fallback_other_format_name : DataFormat → String
  | .appended => "GridFormat::VTK::inlined"
  | .inlined => "GridFormat::VTK::appended"

/-- Embedding of overload resolution for `VTK::data_format_name`:
the four concrete overloads return "appended", "appended", "binary", "ascii";
every remaining combination selects the fallback template overload, which
throws a `ValueError` built from the format name and the encoder name. -/
def data_format_name : Encoder → DataFormat → Except GFError String
  | .rawBinary, .appended => .ok "appended"
  | .base64, .appended => .ok "appended"
  | .base64, .inlined => .ok "binary"
  | .ascii, .inlined => .ok "ascii"
  | e, f => .error (.valueError
      ("VTK's '" ++ fallback_format_name f ++ "' data format cannot be used with "
        ++ encoder_attribute_name e ++ " encoding. Please choose '"
        ++ fallback_other_format_name f ++ "' or a different encoder."))

end VTK

/-- The Dune geometry-type classes distinguished by the traits code.
`prism`, `pyramid` and `other` stand for the geometry types that none of the
`is...` queries used in traits/dune.hpp recognises. -/
inductive GeometryType where
  | vertex
  | line
  | triangle
  | quadrilateral
  | tetrahedron
  | hexahedron
  | prism
  | pyramid
  | other
deriving DecidableEq, Repr

/-- Dune query `GeometryType::isVertex`. -/
def GeometryType.isVertex : GeometryType → Bool
  | .vertex => true
  | _ => false

/-- Dune query `GeometryType::isLine`. -/
def GeometryType.isLine : GeometryType → Bool
  | .line => true
  | _ => false

/-- Dune query `GeometryType::isTriangle`. -/
def GeometryType.isTriangle : GeometryType → Bool
  | .triangle => true
  | _ => false

/-- Dune query `GeometryType::isQuadrilateral`. -/
def GeometryType.isQuadrilateral : GeometryType → Bool
  | .quadrilateral => true
  | _ => false

/-- Dune query `GeometryType::isTetrahedron`. -/
def GeometryType.isTetrahedron : GeometryType → Bool
  | .tetrahedron => true
  | _ => false

/-- Dune query `GeometryType::isHexahedron`. -/
def GeometryType.isHexahedron : GeometryType → Bool
  | .hexahedron => true
  | _ => false

/-- The `GridFormat::CellType` tags used by the embedded traits. -/
inductive CellType where
  | vertex
  | segment
  | triangle
  | quadrilateral
  | tetrahedron
  | hexahedron
  | lagrange_segment
  | lagrange_triangle
  | lagrange_quadrilateral
  | lagrange_tetrahedron
  | lagrange_hexahedron
deriving DecidableEq, Repr

/-- Embedding of `DuneDetail::map_corner_index`: permutes corner indices of
quadrilaterals with (0,1,3,2) and of hexahedra with (0,1,3,2,4,5,7,6);
every other geometry type is left unchanged. -/
def DuneDetail.map_corner_index (gt : GeometryType) (i : Nat) : Nat :=
  if gt.isQuadrilateral then [0, 1, 3, 2].getD i 0
  else if gt.isHexahedron then [0, 1, 3, 2, 4, 5, 7, 6].getD i 0
  else i

/-- Embedding of `DuneDetail::cell_type`: maps the recognised Dune geometry
types to `GridFormat::CellType` tags and throws `NotImplemented` otherwise. -/
def DuneDetail.cell_type (gt : GeometryType) : Except GFError CellType :=
  if gt.isVertex then .ok .vertex
  else if gt.isLine then .ok .segment
  else if gt.isTriangle then .ok .triangle
  else if gt.isQuadrilateral then .ok .quadrilateral
  else if gt.isTetrahedron then .ok .tetrahedron
  else if gt.isHexahedron then .ok .hexahedron
  else .error (.notImplemented "Unknown Dune::GeometryType")

/-- Embedding of `DuneLagrangeDetail::cell_type`: maps the recognised Dune
geometry types to the lagrange `CellType` variants (no vertex case) and
throws `NotImplemented` otherwise. -/
def DuneLagrangeDetail.cell_type (gt : GeometryType) : Except GFError CellType :=
  if gt.isLine then .ok .lagrange_segment
  else if gt.isTriangle then .ok .lagrange_triangle
  else if gt.isQuadrilateral then .ok .lagrange_quadrilateral
  else if gt.isTetrahedron then .ok .lagrange_tetrahedron
  else if gt.isHexahedron then .ok .lagrange_hexahedron
  else .error (.notImplemented "Unsupported Dune::GeometryType")

/-- Dune partition types of grid entities. -/
inductive PartitionType where
  | interior
  | border
  | overlap
  | front
  | ghost
deriving DecidableEq, Repr

/-- Containment in Dune's `Interior_Partition` iterator partition set. -/
def PartitionType.inInterior : PartitionType → Bool
  | .interior => true
  | _ => false

/-- Containment in Dune's `InteriorBorder_Partition` iterator partition set. -/
def PartitionType.inInteriorBorder : PartitionType → Bool
  | .interior => true
  | .border => true
  | _ => false

/-- Model of a Dune codim-0 entity as used by the traits: its geometry type,
its partition type, `subEntities(codim)` and `subEntity<codim>(i)` (the
latter returning sub-entity handles of type `V`). -/
structure DuneElement (V : Type) where
  gtype : GeometryType
  partition : PartitionType
  subCount : Nat → Nat
  subEntity : Nat → Nat → V

/-- Model of a Dune vertex (codim-dim entity): an identity token plus its
partition type. -/
structure DuneVertex where
  vid : Nat
  partition : PartitionType
deriving DecidableEq, Repr

/-- Model of a `Dune::GridView`: dimension, communicator size, the per-codim
entity counts `size(codim)`, all entities of the view (the iterators over a
partition set traverse the entities whose partition lies in the set), and the
index set map `indexSet().index(v)`. -/
structure DuneGridView where
  dim : Nat
  commSize : Nat
  sizeAtCodim : Nat → Nat
  allVertices : List DuneVertex
  allElements : List (DuneElement DuneVertex)
  indexMap : DuneVertex → Nat

/-- Embedding of `Traits::Points<Dune::GridView>`: the vertex-codim iterator
range over the `InteriorBorder_Partition` set. -/
def Traits.DunePoints (gv : DuneGridView) : List DuneVertex :=
  gv.allVertices.filter (fun v => v.partition.inInteriorBorder)

/-- Embedding of `Traits::Cells<Dune::GridView>`: the codim-0 iterator range
over the `Interior_Partition` set. -/
def Traits.DuneCells (gv : DuneGridView) : List (DuneElement DuneVertex) :=
  gv.allElements.filter (fun e => e.partition.inInterior)

/-- Embedding of `Traits::NumberOfPoints<Dune::GridView>`: `size(dim)` for a
single-process communicator, the length of the points range otherwise. -/
def Traits.DuneNumberOfPoints (gv : DuneGridView) : Nat :=
  if gv.commSize = 1 then gv.sizeAtCodim gv.dim
  else (Traits.DunePoints gv).length

/-- Embedding of `Traits::NumberOfCells<Dune::GridView>`: `size(0)` for a
single-process communicator, the length of the cells range otherwise. -/
def Traits.DuneNumberOfCells (gv : DuneGridView) : Nat :=
  if gv.commSize = 1 then gv.sizeAtCodim 0
  else (Traits.DuneCells gv).length

/-- Embedding of `Traits::CellPoints<Dune::GridView>` for an element of a
grid view of dimension `dim`: corner `i` is sub-entity
`map_corner_index(type, i)` at codim `dim`. -/
def Traits.DuneCellPointsAt {V : Type} (dim : Nat) (e : DuneElement V) : List V :=
  (List.range (e.subCount dim)).map
    (fun i => e.subEntity dim (DuneDetail.map_corner_index e.gtype i))

/-- Embedding of `Traits::CellPoints<Dune::GridView>` on a grid view. -/
def Traits.DuneCellPoints (gv : DuneGridView) (e : DuneElement DuneVertex) :
    List DuneVertex :=
  Traits.DuneCellPointsAt gv.dim e

/-- Embedding of `Traits::CellType<Dune::GridView>`. -/
def Traits.DuneCellType {V : Type} (e : DuneElement V) : Except GFError CellType :=
  DuneDetail.cell_type e.gtype

/-- Embedding of `Traits::PointId<Dune::GridView>`: the index-set index. -/
def Traits.DunePointId (gv : DuneGridView) (v : DuneVertex) : Nat :=
  gv.indexMap v

/-- Example element used to instantiate theorems with hypotheses: a
quadrilateral whose four codim-2 sub-entities are `0, 10, 20, 30`. -/
def exampleQuadElement : DuneElement Nat :=
  { gtype := .quadrilateral
    partition := .interior
    subCount := fun _ => 4
    subEntity := fun _ i => i * 10 }

/-- Model of a CGAL handle: the address of the pointed-to object plus whether
the entity is finite (CGAL triangulations store one infinite vertex and the
infinite faces/cells incident to it). -/
structure CGALHandle where
  address : Nat
  isFinite : Bool
deriving DecidableEq, Repr

/-- Model of a `CGAL::Triangulation_2`: all vertex and face handles, plus the
counts reported by the library (`number_of_vertices()` counts the finite
vertices, `number_of_faces()` the finite faces — these documented contracts
enter the theorems as hypotheses). -/
structure Triangulation2 where
  allVertexHandles : List CGALHandle
  allFaceHandles : List CGALHandle
  number_of_vertices : Nat
  number_of_faces : Nat
deriving DecidableEq, Repr

/-- Model of a `CGAL::Triangulation_3`: all vertex and cell handles, plus the
library counts `number_of_vertices()` (finite vertices) and
`number_of_finite_cells()`. -/
structure Triangulation3 where
  allVertexHandles : List CGALHandle
  allCellHandles : List CGALHandle
  number_of_vertices : Nat
  number_of_finite_cells : Nat
deriving DecidableEq, Repr

/-- CGAL's `finite_vertex_handles()` range: the finite vertices. -/
def Triangulation2.finite_vertex_handles (t : Triangulation2) : List CGALHandle :=
  t.allVertexHandles.filter (fun h => h.isFinite)

/-- CGAL's `finite_face_handles()` range: the finite faces. -/
def Triangulation2.finite_face_handles (t : Triangulation2) : List CGALHandle :=
  t.allFaceHandles.filter (fun h => h.isFinite)

/-- CGAL's `finite_vertex_handles()` range of a 3d triangulation. -/
def Triangulation3.finite_vertex_handles (t : Triangulation3) : List CGALHandle :=
  t.allVertexHandles.filter (fun h => h.isFinite)

/-- CGAL's `finite_cell_handles()` range: the finite cells. -/
def Triangulation3.finite_cell_handles (t : Triangulation3) : List CGALHandle :=
  t.allCellHandles.filter (fun h => h.isFinite)

/-- Embedding of `Traits::Points<CGALGrid2D>`: `finite_vertex_handles()`. -/
def Traits.CGALPoints2 (t : Triangulation2) : List CGALHandle :=
  t.finite_vertex_handles

/-- Embedding of `Traits::Cells<CGALGrid2D>`: `finite_face_handles()`. -/
def Traits.CGALCells2 (t : Triangulation2) : List CGALHandle :=
  t.finite_face_handles

/-- Embedding of `Traits::Points<CGALGrid3D>`: `finite_vertex_handles()`. -/
def Traits.CGALPoints3 (t : Triangulation3) : List CGALHandle :=
  t.finite_vertex_handles

/-- Embedding of `Traits::Cells<CGALGrid3D>`: `finite_cell_handles()`. -/
def Traits.CGALCells3 (t : Triangulation3) : List CGALHandle :=
  t.finite_cell_handles

/-- Embedding of `Traits::NumberOfPoints<CGALGrid2D>`: `number_of_vertices()`. -/
def Traits.CGALNumberOfPoints2 (t : Triangulation2) : Nat :=
  t.number_of_vertices

/-- Embedding of `Traits::NumberOfCells<CGALGrid2D>`: `number_of_faces()`. -/
def Traits.CGALNumberOfCells2 (t : Triangulation2) : Nat :=
  t.number_of_faces

/-- Embedding of `Traits::NumberOfPoints<CGALGrid3D>`: `number_of_vertices()`. -/
def Traits.CGALNumberOfPoints3 (t : Triangulation3) : Nat :=
  t.number_of_vertices

/-- Embedding of `Traits::NumberOfCells<CGALGrid3D>`:
`number_of_finite_cells()`. -/
def Traits.CGALNumberOfCells3 (t : Triangulation3) : Nat :=
  t.number_of_finite_cells

/-- Model of `CGAL::Handle_hash_function`: the address of the pointee divided
by the size of the pointee type (passed explicitly as `sizeofValue`). -/
def CGAL.Handle_hash_function (sizeofValue : Nat) (h : CGALHandle) : Nat :=
  h.address / sizeofValue

/-- Embedding of `Traits::PointId<CGALGrid>`: `CGAL::Handle_hash_function{}(v)`. -/
def Traits.CGALPointId (sizeofValue : Nat) (h : CGALHandle) : Nat :=
  CGAL.Handle_hash_function sizeofValue h

/-- The state of a `DuneLagrangeMesh` after construction or `update()`: the
`_points` vector and the `_cells` connectivity vectors. -/
structure LagrangeMeshState (GP : Type) where
  points : List GP
  cells : List (List Nat)

/-- `DuneLagrangeMesh::number_of_points()`. -/
def LagrangeMeshState.number_of_points {GP : Type} (m : LagrangeMeshState GP) : Nat :=
  m.points.length

/-- `DuneLagrangeMesh::number_of_cells()`. -/
def LagrangeMeshState.number_of_cells {GP : Type} (m : LagrangeMeshState GP) : Nat :=
  m.cells.length

/-- `DuneLagrangeMesh::cell_points(i)`: the connectivity of cell `i`
(`_cells.at(i)`; out of range throws, modelled as the empty default). -/
def LagrangeMeshState.cell_points {GP : Type} (m : LagrangeMeshState GP)
    (i : Nat) : List Nat :=
  m.cells.getD i []

/-- `DuneLagrangeMesh::point(i)`: `_points.at(i)`, defined only in range. -/
def LagrangeMeshState.point {GP : Type} (m : LagrangeMeshState GP) (i : Nat) :
    Option GP :=
  m.points.get? i

/-- Embedding of `Traits::Points<DuneLagrangeMesh>`: the index range
`[0, number_of_points)`. -/
def Traits.LagrangePoints {GP : Type} (m : LagrangeMeshState GP) : List Nat :=
  List.range m.number_of_points

/-- Embedding of `Traits::NumberOfPoints<DuneLagrangeMesh>`. -/
def Traits.LagrangeNumberOfPoints {GP : Type} (m : LagrangeMeshState GP) : Nat :=
  m.number_of_points

/-- Embedding of `Traits::PointId<DuneLagrangeMesh>`: the point index itself. -/
def Traits.LagrangePointId {GP : Type} (_m : LagrangeMeshState GP)
    (point_index : Nat) : Nat :=
  point_index

/-- Example 2d triangulation: two finite vertices at addresses 8 and 16, the
infinite vertex at 24, one finite and one infinite face. -/
def exampleTri2 : Triangulation2 :=
  { allVertexHandles := [⟨8, true⟩, ⟨16, true⟩, ⟨24, false⟩]
    allFaceHandles := [⟨32, true⟩, ⟨40, false⟩]
    number_of_vertices := 2
    number_of_faces := 1 }

/-- Example 3d triangulation with one finite cell. -/
def exampleTri3 : Triangulation3 :=
  { allVertexHandles := [⟨8, true⟩, ⟨16, true⟩, ⟨24, true⟩, ⟨32, true⟩, ⟨40, false⟩]
    allCellHandles := [⟨48, true⟩, ⟨56, false⟩]
    number_of_vertices := 4
    number_of_finite_cells := 1 }

/-- Example sequential Dune grid view: one interior triangle, three
interior/border vertices. -/
def exampleDuneGridView : DuneGridView :=
  { dim := 2
    commSize := 1
    sizeAtCodim := fun c => if c = 0 then 1 else if c = 2 then 3 else 0
    allVertices := [⟨0, .interior⟩, ⟨1, .border⟩, ⟨2, .interior⟩]
    allElements := [{ gtype := .triangle
                      partition := .interior
                      subCount := fun _ => 3
                      subEntity := fun _ i => ⟨i, .interior⟩ }]
    indexMap := fun v => v.vid }

/-- Example lagrange mesh state. -/
def exampleLagrangeState : LagrangeMeshState Nat :=
  { points := [100, 101, 102], cells := [[0, 1, 2]] }

/-- Model of one Dune::YaspGrid level as used by the structured traits: the
interior cell box bounds `min(i)`/`max(i)` (the `extent_bounds` object) and
the per-axis coordinate function `coords.coordinate(direction, k)`.
Coordinates are modelled as rationals. -/
structure YaspGridLevel where
  min : Nat → Int
  max : Nat → Int
  coordinate : Nat → Int → ℚ

/-- Model of a YaspGrid grid view: dimension plus the grid level the traits
dereference. -/
structure YaspGridView where
  dim : Nat
  level : YaspGridLevel

/-- Conversion of a C++ `int` value to `std::size_t`: reduction modulo 2^64. -/
def to_size_t (x : Int) : Nat :=
  (x % (2 : Int) ^ 64).toNat

/-- Embedding of `Traits::Extents<YaspGrid view>`: per direction `i` the entry
is `gc.max(i) - gc.min(i) + 1`, stored into a `std::size_t` array. -/
def Traits.YaspExtents (gv : YaspGridView) : List Nat :=
  (List.range gv.dim).map
    (fun i => to_size_t (gv.level.max i - gv.level.min i + 1))

/-- Embedding of `Traits::Ordinates<YaspGrid view>`: a vector of
`max(direction) - min(direction) + 2` point ordinates, entry `i` holding
`coords.coordinate(direction, min(direction) + i)` (the construction-and-fill
loop writes every slot when the count is non-negative). -/
def Traits.YaspOrdinates (gv : YaspGridView) (direction : Nat) : List ℚ :=
  (List.range (to_size_t (gv.level.max direction - gv.level.min direction + 2))).map
    (fun (i : Nat) => gv.level.coordinate direction (gv.level.min direction + (i : Int)))

/-- Example YaspGrid view: one axis with interior cells 0..9, uniform spacing
one tenth. -/
def exampleYaspGridView : YaspGridView :=
  { dim := 1
    level :=
      { min := fun _ => 0
        max := fun _ => 9
        coordinate := fun _ k => (k : ℚ) / 10 } }

/-- Model of the `GridFormat::ImageGrid<2, double>` constructor arguments used
by the parallel reference test: origin, per-axis side lengths, per-axis cell
counts. The test values are small integers, so exact rationals model them. -/
structure ImageGrid2 where
  origin : ℚ × ℚ
  size : ℚ × ℚ
  cells : Nat × Nat
deriving DecidableEq, Repr

/-- The grid constructed by rank `r` in test_generic_parallel_writer.cpp:
origin `(r mod 2, r div 2)`, side lengths 1x1, 10x15 cells. -/
def testPieceGrid (rank : Nat) : ImageGrid2 :=
  { origin := (((rank % 2 : Nat) : ℚ), ((rank / 2 : Nat) : ℚ))
    size := (1, 1)
    cells := (10, 15) }

/-- The half-open axis-aligned extent covered by an image-grid piece. -/
def ImageGrid2.memExtent (g : ImageGrid2) (p : ℚ × ℚ) : Prop :=
  g.origin.1 ≤ p.1 ∧ p.1 < g.origin.1 + g.size.1
    ∧ g.origin.2 ≤ p.2 ∧ p.2 < g.origin.2 + g.size.2

/-- The half-open global 2-unit-by-2-unit domain of the reference scenario. -/
def memGlobalDomain (p : ℚ × ℚ) : Prop :=
  0 ≤ p.1 ∧ p.1 < 2 ∧ 0 ≤ p.2 ∧ p.2 < 2

/-- Modelled from the spec: the parallel piece coordinator (its writer sources
are not under src/) has the designated aggregator rank write a summary
document whose body references every process's piece file, one reference per
participating process, the piece files being distinguished by process rank. -/
def summaryPieceReferences (nranks : Nat) : List String :=
  (List.range nranks).map (fun r => "generic_parallel_2d_in_2d-" ++ Nat.repr r)

/-- Embedding of `DuneLagrangeDetail::dune_to_gfmt_sub_entity`: the canonical
sub-entity reordering tables per geometry type and codimension. -/
def DuneLagrangeDetail.dune_to_gfmt_sub_entity (gt : GeometryType) (i : Nat)
    (codim : Nat) : Nat :=
  if gt.isTriangle then
    (if codim = 1 then [0, 2, 1].getD i 0 else i)
  else if gt.isQuadrilateral then
    (if codim = 2 then [0, 1, 3, 2].getD i 0
     else if codim = 1 then [3, 1, 0, 2].getD i 0
     else i)
  else if gt.isTetrahedron then
    (if codim = 2 then [0, 2, 1, 3, 4, 5].getD i 0
     else if codim = 1 then [3, 0, 2, 1].getD i 0
     else i)
  else if gt.isHexahedron then
    (if codim = 3 then [0, 1, 3, 2, 4, 5, 7, 6].getD i 0
     else if codim = 2 then [8, 9, 11, 10, 3, 1, 0, 2, 7, 5, 4, 6].getD i 0
     else i)
  else i

/-- The key type of `DuneLagrangeMesh::PointIndicesHelper::Key`:
(codim, global entity index, sub-entity point index). -/
abbrev PKey := Nat × Nat × Nat

/-- A local lagrange point of `Dune::EquidistantPointSet`: its local key
(codim, subEntity, index) and its payload position of type `LP`. -/
structure LocalPoint (LP : Type) where
  codim : Nat
  subEntity : Nat
  index : Nat
  point : LP

/-- Model of one grid-view element as consumed by `DuneLagrangeMesh`: its
geometry type, `subEntities(codim)`, the mapper lookup
`codim_to_mapper.at(codim).subIndex(element, sub_entity, codim)` (argument
order: sub_entity, codim), and `element.geometry().global(...)`. -/
structure LagrangeElement (LP GP : Type) where
  gtype : GeometryType
  subCount : Nat → Nat
  subIndex : Nat → Nat → Nat
  globalMap : LP → GP

/-- The inputs `DuneLagrangeMesh::update()` consumes: the grid-view dimension,
the element range `Traits::Cells::get(_grid_view)` in iteration order, and the
per-geometry-type local lagrange points `_local_points.at(gt)`. -/
structure LagrangeMeshInput (LP GP : Type) where
  dim : Nat
  elements : List (LagrangeElement LP GP)
  localPoints : GeometryType → List (LocalPoint LP)

/-- `PointIndicesHelper::contains`: the key is present. The helper's nested
unordered_maps are modelled by the association list of inserted entries
(insertions are guarded by `contains`, so keys are unique). -/
def pidxContains (pidx : List (PKey × Nat)) (k : PKey) : Bool :=
  pidx.any (fun e => e.1 == k)

/-- `PointIndicesHelper::get(codim, global_index)`: the inner map from
sub-entity point index to global point index, as the list of its entries
(the C++ iteration order over the unordered_map is unspecified; only the
entry set and count are relied upon). -/
def pidxGet (pidx : List (PKey × Nat)) (codim global_index : Nat) :
    List (Nat × Nat) :=
  (pidx.filter (fun e => e.1.1 == codim && e.1.2.1 == global_index)).map
    (fun e => (e.1.2.2, e.2))

/-- One iteration of the inner loop of `_make_points`: compute the key of the
local point; if absent, push the mapped global position onto `_points` and
record the key with index `_points.size() - 1`. -/
def makePointsStep {LP GP : Type} (e : LagrangeElement LP GP)
    (st : List GP × List (PKey × Nat)) (lp : LocalPoint LP) :
    List GP × List (PKey × Nat) :=
  let key : PKey := (lp.codim, e.subIndex lp.subEntity lp.codim, lp.index)
  if pidxContains st.2 key then st
  else (st.1 ++ [e.globalMap lp.point], st.2 ++ [(key, st.1.length)])

/-- Embedding of `DuneLagrangeMesh::_make_points`: fold the element range,
and per element its local points, through `makePointsStep`, starting from
empty `_points` and empty point indices. -/
def makePoints {LP GP : Type} (inp : LagrangeMeshInput LP GP) :
    List GP × List (PKey × Nat) :=
  inp.elements.foldl
    (fun st e => (inp.localPoints e.gtype).foldl (makePointsStep e) st)
    ([], [])

/-- The vector built for one sub-entity in `_set_connectivity`: resized to
`indices.size()` (zero-initialised, `std::size_t` default) and then
`v[local] = global` for every entry of the inner map. -/
def subIndicesVector (indices : List (Nat × Nat)) : List Nat :=
  indices.foldl (fun v lg => v.set lg.1 lg.2) (List.replicate indices.length 0)

/-- The `codim_points` vector built by `_set_connectivity` for one element and
one codimension: `subEntities(codim)` empty vectors, then for each sub-entity
whose (codim, global_index, 0) key is known, slot
`dune_to_gfmt_sub_entity(type, sub_entity, codim)` receives the vector of its
point indices. -/
def codimPointsFor {LP GP : Type} (pidx : List (PKey × Nat))
    (e : LagrangeElement LP GP) (codim : Nat) : List (List Nat) :=
  (List.range (e.subCount codim)).foldl
    (fun cp sub_entity =>
      let mapped := DuneLagrangeDetail.dune_to_gfmt_sub_entity e.gtype sub_entity codim
      let g := e.subIndex sub_entity codim
      if pidxContains pidx (codim, g, 0) then
        cp.set mapped (subIndicesVector (pidxGet pidx codim g))
      else cp)
    (List.replicate (e.subCount codim) [])

/-- The connectivity of one cell in `_set_connectivity`: for codim from dim
down to 0, append the flattened `codim_points` to the cell's point list. -/
def cellConnectivity {LP GP : Type} (dim : Nat) (pidx : List (PKey × Nat))
    (e : LagrangeElement LP GP) : List Nat :=
  ((List.range (dim + 1)).reverse).foldl
    (fun acc codim => acc ++ (codimPointsFor pidx e codim).flatten) []

/-- Embedding of `DuneLagrangeMesh::_set_connectivity`: one connectivity
vector per element of the range. -/
def setConnectivity {LP GP : Type} (inp : LagrangeMeshInput LP GP)
    (pidx : List (PKey × Nat)) : List (List Nat) :=
  inp.elements.map (cellConnectivity inp.dim pidx)

/-- Embedding of `DuneLagrangeMesh::update()` (also run by the constructor):
clear, `_make_points`, `_set_connectivity`. -/
def DuneLagrangeMesh.update {LP GP : Type} (inp : LagrangeMeshInput LP GP) :
    LagrangeMeshState GP :=
  { points := (makePoints inp).1
    cells := setConnectivity inp (makePoints inp).2 }

/-- Example input: a single first-order triangle whose three vertex lagrange
points sit on sub-entities 0, 1, 2 of codim 2. -/
def exampleLagrangeInput : LagrangeMeshInput Nat Nat :=
  { dim := 2
    elements := [{ gtype := .triangle
                   subCount := fun c => if c = 0 then 1 else 3
                   subIndex := fun se _ => se
                   globalMap := fun p => p }]
    localPoints := fun gt =>
      if gt = .triangle then
        [⟨2, 0, 0, 10⟩, ⟨2, 1, 0, 11⟩, ⟨2, 2, 0, 12⟩]
      else [] }

end GridFormat

namespace GridFormat

/-- C1: Ascii+appended and RawBinary+inlined are rejected with a `ValueError`
whose message names the data format and the encoder, and no data-format name
is produced for them; the four legal combinations (Ascii+inlined,
Base64+inlined, Base64+appended, RawBinary+appended) return a valid
data-format name without error. -/
theorem data_format_name_placement_legality :
    (VTK.data_format_name Encoder.ascii DataFormat.appended =
      Except.error (GFError.valueError
        ("VTK's 'appended' data format cannot be used with ascii encoding. "
          ++ "Please choose 'GridFormat::VTK::inlined' or a different encoder.")))
    ∧ (VTK.data_format_name Encoder.rawBinary DataFormat.inlined =
      Except.error (GFError.valueError
        ("VTK's 'inlined' data format cannot be used with raw encoding. "
          ++ "Please choose 'GridFormat::VTK::appended' or a different encoder.")))
    ∧ VTK.data_format_name Encoder.ascii DataFormat.inlined = Except.ok "ascii"
    ∧ VTK.data_format_name Encoder.base64 DataFormat.inlined = Except.ok "binary"
    ∧ VTK.data_format_name Encoder.base64 DataFormat.appended = Except.ok "appended"
    ∧ VTK.data_format_name Encoder.rawBinary DataFormat.appended = Except.ok "appended"
    ∧ (∀ e f, (VTK.data_format_name e f).isOk = true ↔
        ¬((e = Encoder.ascii ∧ f = DataFormat.appended)
          ∨ (e = Encoder.rawBinary ∧ f = DataFormat.inlined))) := by
  refine ⟨rfl, rfl, rfl, rfl, rfl, rfl, ?_⟩
  intro e f
  cases e <;> cases f <;> simp [VTK.data_format_name, Except.isOk, Except.toBool]

/-- C8: the VTK attribute name of a numeric precision descriptor is the prefix
"Int" (signed integral), "UInt" (unsigned integral) or "Float" (non-integral)
concatenated with the decimal rendering of 8 times the size in bytes; in
particular an unsigned 4-byte integral yields "UInt32". -/
theorem attribute_name_spec :
    (∀ prec : DynamicPrecision,
      VTK.attribute_name prec =
        (if prec.is_integral then (if prec.is_signed then "Int" else "UInt") else "Float")
          ++ Nat.repr (8 * prec.size_in_bytes))
    ∧ VTK.attribute_name ⟨true, false, 4⟩ = "UInt32"
    ∧ VTK.attribute_name ⟨true, true, 8⟩ = "Int64"
    ∧ VTK.attribute_name ⟨false, true, 8⟩ = "Float64" := by
  refine ⟨?_, rfl, rfl, rfl⟩
  intro prec
  unfold VTK.attribute_name
  rw [Nat.mul_comm]

/-- On geometry types other than quadrilateral and hexahedron the corner map
is the identity. -/
lemma map_corner_index_eq_self (gt : GeometryType)
    (hq : gt ≠ GeometryType.quadrilateral) (hh : gt ≠ GeometryType.hexahedron)
    (i : Nat) : DuneDetail.map_corner_index gt i = i := by
  cases gt <;> simp_all [DuneDetail.map_corner_index, GeometryType.isQuadrilateral,
    GeometryType.isHexahedron]

/-- C5: for every Dune geometry type that is none of vertex, line, triangle,
quadrilateral, tetrahedron, hexahedron, the cell_type operation throws
`NotImplemented` (respectively for the Lagrange variant, whose recognised list
lacks the vertex case); every listed topology maps to the corresponding
`CellType` without error. -/
theorem cell_type_not_implemented_on_unknown_topology :
    ∀ gt : GeometryType,
      DuneDetail.cell_type gt = (match gt with
        | .vertex => Except.ok CellType.vertex
        | .line => Except.ok CellType.segment
        | .triangle => Except.ok CellType.triangle
        | .quadrilateral => Except.ok CellType.quadrilateral
        | .tetrahedron => Except.ok CellType.tetrahedron
        | .hexahedron => Except.ok CellType.hexahedron
        | _ => Except.error (GFError.notImplemented "Unknown Dune::GeometryType"))
      ∧ DuneLagrangeDetail.cell_type gt = (match gt with
        | .line => Except.ok CellType.lagrange_segment
        | .triangle => Except.ok CellType.lagrange_triangle
        | .quadrilateral => Except.ok CellType.lagrange_quadrilateral
        | .tetrahedron => Except.ok CellType.lagrange_tetrahedron
        | .hexahedron => Except.ok CellType.lagrange_hexahedron
        | _ => Except.error (GFError.notImplemented "Unsupported Dune::GeometryType")) := by
  intro gt
  cases gt <;> exact ⟨rfl, rfl⟩

/-- C3: the Dune cell_points operation returns the corners in the format's
canonical order: for a quadrilateral the i-th corner is sub-entity (0,1,3,2)[i],
for a hexahedron (0,1,3,2,4,5,7,6)[i], and for every other geometry type the
order is the identity. -/
theorem dune_cell_points_canonical_order :
    ∀ (V : Type) (dim : Nat) (e : DuneElement V),
      (e.gtype = GeometryType.quadrilateral → e.subCount dim = 4 →
        Traits.DuneCellPointsAt dim e =
          [e.subEntity dim 0, e.subEntity dim 1, e.subEntity dim 3, e.subEntity dim 2])
      ∧ (e.gtype = GeometryType.hexahedron → e.subCount dim = 8 →
        Traits.DuneCellPointsAt dim e =
          [0, 1, 3, 2, 4, 5, 7, 6].map (e.subEntity dim))
      ∧ (e.gtype ≠ GeometryType.quadrilateral → e.gtype ≠ GeometryType.hexahedron →
        Traits.DuneCellPointsAt dim e =
          (List.range (e.subCount dim)).map (e.subEntity dim)) := by
  intro V dim e
  refine ⟨?_, ?_, ?_⟩
  · intro hq hc
    unfold Traits.DuneCellPointsAt
    rw [hq, hc]
    rfl
  · intro hh hc
    unfold Traits.DuneCellPointsAt
    rw [hh, hc]
    rfl
  · intro hq hh
    unfold Traits.DuneCellPointsAt
    exact List.map_congr_left (fun i _ => by rw [map_corner_index_eq_self e.gtype hq hh])

/-- Witness for C3: evaluated on the example quadrilateral element, the
reordered corners are (0, 10, 30, 20). -/
theorem dune_cell_points_canonical_order_witness :
    Traits.DuneCellPointsAt 2 exampleQuadElement = [0, 10, 30, 20] :=
  ((dune_cell_points_canonical_order Nat 2 exampleQuadElement).1 rfl rfl).trans rfl

/-- Membership in the `Interior_Partition` set characterised. -/
lemma inInterior_iff (p : PartitionType) :
    p.inInterior = true ↔ p = PartitionType.interior := by
  cases p <;> simp [PartitionType.inInterior]

/-- Membership in the `InteriorBorder_Partition` set characterised. -/
lemma inInteriorBorder_iff (p : PartitionType) :
    p.inInteriorBorder = true ↔
      (p = PartitionType.interior ∨ p = PartitionType.border) := by
  cases p <;> simp [PartitionType.inInteriorBorder]

/-- C2: for every adaptable grid the number_of_points (resp. number_of_cells)
operation agrees with the length of the points (resp. cells) sequence: for
CGAL 2d/3d triangulations under the documented CGAL count contracts, and for
Dune grid views in both the single-process branch (given Dune's contract that
`size(codim)` counts all view entities, all of them interior/border in a
sequential view) and the multi-process branch. -/
theorem number_of_entities_matches_sequence_length :
    (∀ t2 : Triangulation2,
      t2.number_of_vertices = t2.finite_vertex_handles.length →
      t2.number_of_faces = t2.finite_face_handles.length →
      Traits.CGALNumberOfPoints2 t2 = (Traits.CGALPoints2 t2).length
        ∧ Traits.CGALNumberOfCells2 t2 = (Traits.CGALCells2 t2).length)
    ∧ (∀ t3 : Triangulation3,
      t3.number_of_vertices = t3.finite_vertex_handles.length →
      t3.number_of_finite_cells = t3.finite_cell_handles.length →
      Traits.CGALNumberOfPoints3 t3 = (Traits.CGALPoints3 t3).length
        ∧ Traits.CGALNumberOfCells3 t3 = (Traits.CGALCells3 t3).length)
    ∧ (∀ gv : DuneGridView,
      gv.sizeAtCodim gv.dim = gv.allVertices.length →
      gv.sizeAtCodim 0 = gv.allElements.length →
      (gv.commSize = 1 →
        (∀ v ∈ gv.allVertices, v.partition.inInteriorBorder = true)
          ∧ (∀ e ∈ gv.allElements, e.partition.inInterior = true)) →
      Traits.DuneNumberOfPoints gv = (Traits.DunePoints gv).length
        ∧ Traits.DuneNumberOfCells gv = (Traits.DuneCells gv).length) := by
  refine ⟨fun t2 h1 h2 => ⟨h1, h2⟩, fun t3 h1 h2 => ⟨h1, h2⟩, ?_⟩
  intro gv h1 h2 h3
  unfold Traits.DuneNumberOfPoints Traits.DuneNumberOfCells
    Traits.DunePoints Traits.DuneCells
  by_cases hc : gv.commSize = 1
  · obtain ⟨hv, he⟩ := h3 hc
    rw [if_pos hc, if_pos hc, List.filter_eq_self.mpr hv, List.filter_eq_self.mpr he]
    exact ⟨h1, h2⟩
  · rw [if_neg hc, if_neg hc]
    exact ⟨rfl, rfl⟩

/-- Witness for C2: the contracts hold on the example triangulations and the
example sequential grid view, and the counts match the sequence lengths. -/
theorem number_of_entities_matches_sequence_length_witness :
    Traits.CGALNumberOfPoints2 exampleTri2 = (Traits.CGALPoints2 exampleTri2).length
    ∧ Traits.CGALNumberOfCells3 exampleTri3 = (Traits.CGALCells3 exampleTri3).length
    ∧ Traits.DuneNumberOfPoints exampleDuneGridView
        = (Traits.DunePoints exampleDuneGridView).length :=
  ⟨(number_of_entities_matches_sequence_length.1 exampleTri2 (by decide) (by decide)).1,
   (number_of_entities_matches_sequence_length.2.1 exampleTri3 (by decide) (by decide)).2,
   (number_of_entities_matches_sequence_length.2.2 exampleDuneGridView
      (by decide) (by decide) (fun _ => ⟨by decide, by decide⟩)).1⟩

/-- C6: the points and cells operations enumerate only active entities: Dune
cells are interior-partition elements, Dune points are interior-border
vertices (ghost, overlap and front entities are excluded), and CGAL sequences
contain only finite handles. -/
theorem traits_enumerate_active_entities_only :
    (∀ gv : DuneGridView, ∀ e ∈ Traits.DuneCells gv,
      e.partition = PartitionType.interior)
    ∧ (∀ gv : DuneGridView, ∀ v ∈ Traits.DunePoints gv,
      v.partition = PartitionType.interior ∨ v.partition = PartitionType.border)
    ∧ (∀ gv : DuneGridView, ∀ v : DuneVertex,
      v.partition = PartitionType.ghost ∨ v.partition = PartitionType.overlap
        ∨ v.partition = PartitionType.front →
      v ∉ Traits.DunePoints gv)
    ∧ (∀ gv : DuneGridView, ∀ e : DuneElement DuneVertex,
      e.partition ≠ PartitionType.interior → e ∉ Traits.DuneCells gv)
    ∧ (∀ t2 : Triangulation2,
      (∀ h ∈ Traits.CGALPoints2 t2, h.isFinite = true)
        ∧ (∀ h ∈ Traits.CGALCells2 t2, h.isFinite = true))
    ∧ (∀ t3 : Triangulation3,
      (∀ h ∈ Traits.CGALPoints3 t3, h.isFinite = true)
        ∧ (∀ h ∈ Traits.CGALCells3 t3, h.isFinite = true)) := by
  refine ⟨?_, ?_, ?_, ?_, ?_, ?_⟩
  · intro gv e he
    exact (inInterior_iff e.partition).mp (List.mem_filter.mp he).2
  · intro gv v hv
    exact (inInteriorBorder_iff v.partition).mp (List.mem_filter.mp hv).2
  · intro gv v hv hmem
    have := (inInteriorBorder_iff v.partition).mp (List.mem_filter.mp hmem).2
    rcases hv with h | h | h <;> rw [h] at this <;> rcases this with h2 | h2 <;>
      exact absurd h2 (by decide)
  · intro gv e he hmem
    exact he ((inInterior_iff e.partition).mp (List.mem_filter.mp hmem).2)
  · exact fun t2 =>
      ⟨fun h hm => (List.mem_filter.mp hm).2, fun h hm => (List.mem_filter.mp hm).2⟩
  · exact fun t3 =>
      ⟨fun h hm => (List.mem_filter.mp hm).2, fun h hm => (List.mem_filter.mp hm).2⟩

/-- Witness for C6: a border vertex enumerated by the example grid view is
interior-or-border, and a finite vertex enumerated by the example
triangulation is finite. -/
theorem traits_enumerate_active_entities_only_witness :
    ((⟨1, PartitionType.border⟩ : DuneVertex).partition = PartitionType.interior
      ∨ (⟨1, PartitionType.border⟩ : DuneVertex).partition = PartitionType.border)
    ∧ (⟨8, true⟩ : CGALHandle).isFinite = true :=
  ⟨traits_enumerate_active_entities_only.2.1 exampleDuneGridView ⟨1, .border⟩ (by decide),
   (traits_enumerate_active_entities_only.2.2.2.2.1 exampleTri2).1 ⟨8, true⟩ (by decide)⟩

/-- Division by a common positive divisor is injective on its multiples. -/
lemma div_injective_on_multiples {s a b : Nat} (hs : 0 < s) (ha : s ∣ a)
    (hb : s ∣ b) (hne : a ≠ b) : a / s ≠ b / s := by
  obtain ⟨k, rfl⟩ := ha
  obtain ⟨m, rfl⟩ := hb
  rw [Nat.mul_div_cancel_left _ hs, Nat.mul_div_cancel_left _ hs]
  intro h
  exact hne (by rw [h])

/-- The CGAL handle hash is injective on handles with pairwise distinct,
`sizeofValue`-aligned addresses. -/
lemma cgal_hash_injective {s : Nat} {l : List CGALHandle} (hs : 0 < s)
    (hdvd : ∀ h ∈ l, s ∣ h.address)
    (hnd : (l.map (fun h => h.address)).Nodup) :
    ∀ v ∈ l, ∀ w ∈ l, v ≠ w →
      CGAL.Handle_hash_function s v ≠ CGAL.Handle_hash_function s w := by
  intro v hv w hw hne
  have haddr : v.address ≠ w.address :=
    fun h => hne (List.inj_on_of_nodup_map hnd hv hw h)
  exact div_injective_on_multiples hs (hdvd v hv) (hdvd w hw) haddr

/-- C4: point_id returns a non-negative integer and is injective on the points
enumerated within one writer invocation: for CGAL grids under the alignment
and distinctness guarantees of handle addresses, for Dune grid views under the
index-set injectivity contract, and for DuneLagrangeMesh where the id is the
point index itself. -/
theorem point_id_nonnegative_and_unique :
    (∀ (s : Nat) (t2 : Triangulation2),
      0 < s →
      (∀ h ∈ t2.allVertexHandles, s ∣ h.address) →
      (t2.allVertexHandles.map (fun h => h.address)).Nodup →
      ∀ v ∈ Traits.CGALPoints2 t2,
        (0 : Int) ≤ (Traits.CGALPointId s v : Int)
        ∧ ∀ w ∈ Traits.CGALPoints2 t2, v ≠ w →
            Traits.CGALPointId s v ≠ Traits.CGALPointId s w)
    ∧ (∀ (s : Nat) (t3 : Triangulation3),
      0 < s →
      (∀ h ∈ t3.allVertexHandles, s ∣ h.address) →
      (t3.allVertexHandles.map (fun h => h.address)).Nodup →
      ∀ v ∈ Traits.CGALPoints3 t3,
        (0 : Int) ≤ (Traits.CGALPointId s v : Int)
        ∧ ∀ w ∈ Traits.CGALPoints3 t3, v ≠ w →
            Traits.CGALPointId s v ≠ Traits.CGALPointId s w)
    ∧ (∀ gv : DuneGridView,
      (∀ v ∈ gv.allVertices, ∀ w ∈ gv.allVertices,
        gv.indexMap v = gv.indexMap w → v = w) →
      ∀ v ∈ Traits.DunePoints gv,
        (0 : Int) ≤ (Traits.DunePointId gv v : Int)
        ∧ ∀ w ∈ Traits.DunePoints gv, v ≠ w →
            Traits.DunePointId gv v ≠ Traits.DunePointId gv w)
    ∧ (∀ (GP : Type) (m : LagrangeMeshState GP),
      ∀ i ∈ Traits.LagrangePoints m,
        (0 : Int) ≤ (Traits.LagrangePointId m i : Int)
        ∧ ∀ j ∈ Traits.LagrangePoints m, i ≠ j →
            Traits.LagrangePointId m i ≠ Traits.LagrangePointId m j) := by
  refine ⟨?_, ?_, ?_, ?_⟩
  · intro s t2 hs hdvd hnd v hv
    refine ⟨Int.ofNat_nonneg _, fun w hw hne => ?_⟩
    exact cgal_hash_injective hs hdvd hnd v (List.mem_of_mem_filter hv)
      w (List.mem_of_mem_filter hw) hne
  · intro s t3 hs hdvd hnd v hv
    refine ⟨Int.ofNat_nonneg _, fun w hw hne => ?_⟩
    exact cgal_hash_injective hs hdvd hnd v (List.mem_of_mem_filter hv)
      w (List.mem_of_mem_filter hw) hne
  · intro gv hinj v hv
    refine ⟨Int.ofNat_nonneg _, fun w hw hne hid => ?_⟩
    exact hne (hinj v (List.mem_of_mem_filter hv) w (List.mem_of_mem_filter hw) hid)
  · intro GP m i _
    exact ⟨Int.ofNat_nonneg _, fun j _ hne => hne⟩

/-- Witness for C4: on the example grids, distinct enumerated points receive
distinct ids. -/
theorem point_id_nonnegative_and_unique_witness :
    Traits.CGALPointId 8 ⟨8, true⟩ ≠ Traits.CGALPointId 8 ⟨16, true⟩
    ∧ Traits.DunePointId exampleDuneGridView ⟨0, PartitionType.interior⟩
        ≠ Traits.DunePointId exampleDuneGridView ⟨1, PartitionType.border⟩
    ∧ Traits.LagrangePointId exampleLagrangeState 0
        ≠ Traits.LagrangePointId exampleLagrangeState 1 :=
  ⟨(point_id_nonnegative_and_unique.1 8 exampleTri2 (by decide) (by decide) (by decide)
      ⟨8, true⟩ (by decide)).2 ⟨16, true⟩ (by decide) (by decide),
   (point_id_nonnegative_and_unique.2.2.1 exampleDuneGridView (by decide)
      ⟨0, .interior⟩ (by decide)).2 ⟨1, .border⟩ (by decide) (by decide),
   (point_id_nonnegative_and_unique.2.2.2 Nat exampleLagrangeState
      0 (by decide)).2 1 (by decide) (by decide)⟩

/-- C9: for a YaspGrid view, per direction the number of point ordinates
equals the cell extent plus one, whenever the interior box is well-formed
(`min ≤ max`) and the ordinate count fits a C++ int. -/
theorem yasp_ordinate_count_is_extent_plus_one :
    ∀ (gv : YaspGridView) (d : Nat),
      d < gv.dim →
      gv.level.min d ≤ gv.level.max d →
      gv.level.max d - gv.level.min d + 2 ≤ 2147483647 →
      (Traits.YaspOrdinates gv d).length = (Traits.YaspExtents gv).getD d 0 + 1 := by
  intro gv d hd hle hbound
  unfold Traits.YaspOrdinates Traits.YaspExtents
  rw [List.length_map, List.length_range, List.getD_eq_getElem?_getD,
    List.getElem?_map, List.getElem?_range hd]
  unfold to_size_t
  simp only [Option.map_some', Option.getD_some]
  omega

/-- Witness for C9: on the one-axis example view with interior cells 0..9
there are 11 ordinates and 10 cells. -/
theorem yasp_ordinate_count_is_extent_plus_one_witness :
    (Traits.YaspOrdinates exampleYaspGridView 0).length
      = (Traits.YaspExtents exampleYaspGridView).getD 0 0 + 1 :=
  yasp_ordinate_count_is_extent_plus_one exampleYaspGridView 0
    (by decide) (by decide) (by decide)

/-- C7: in the parallel reference scenario rank r writes an image grid with
origin (r mod 2, r div 2), side lengths 1x1 and 10x15 cells; with four
processes the four half-open piece extents cover the 2-by-2 global domain
exactly and pairwise disjointly, and the spec-modelled summary lists exactly
4 piece references. -/
theorem parallel_reference_scenario_pieces_tile_domain :
    (∀ r : Nat, (testPieceGrid r).origin = (((r % 2 : Nat) : ℚ), ((r / 2 : Nat) : ℚ))
      ∧ (testPieceGrid r).size = (1, 1) ∧ (testPieceGrid r).cells = (10, 15))
    ∧ (∀ p : ℚ × ℚ, (∃ r, r < 4 ∧ (testPieceGrid r).memExtent p) ↔ memGlobalDomain p)
    ∧ (∀ r s : Nat, r < 4 → s < 4 → r ≠ s →
        ∀ p : ℚ × ℚ, ¬((testPieceGrid r).memExtent p ∧ (testPieceGrid s).memExtent p))
    ∧ (summaryPieceReferences 4).length = 4 := by
  refine ⟨fun r => ⟨rfl, rfl, rfl⟩, ?_, ?_, rfl⟩
  · intro p
    constructor
    · rintro ⟨r, hr, hm⟩
      unfold testPieceGrid ImageGrid2.memExtent at hm
      unfold memGlobalDomain
      interval_cases r <;>
        · norm_num at hm
          obtain ⟨h1, h2, h3, h4⟩ := hm
          exact ⟨by linarith, by linarith, by linarith, by linarith⟩
    · intro hg
      obtain ⟨h1, h2, h3, h4⟩ := hg
      rcases lt_or_le p.1 1 with hx | hx <;> rcases lt_or_le p.2 1 with hy | hy
      · refine ⟨0, by norm_num, ?_⟩
        unfold testPieceGrid ImageGrid2.memExtent
        norm_num
        exact ⟨h1, hx, h3, hy⟩
      · refine ⟨2, by norm_num, ?_⟩
        unfold testPieceGrid ImageGrid2.memExtent
        norm_num
        exact ⟨h1, hx, hy, h4⟩
      · refine ⟨1, by norm_num, ?_⟩
        unfold testPieceGrid ImageGrid2.memExtent
        norm_num
        exact ⟨hx, h2, h3, hy⟩
      · refine ⟨3, by norm_num, ?_⟩
        unfold testPieceGrid ImageGrid2.memExtent
        norm_num
        exact ⟨hx, h2, hy, h4⟩
  · intro r s hr hs hne p hboth
    obtain ⟨hmr, hms⟩ := hboth
    unfold testPieceGrid ImageGrid2.memExtent at hmr hms
    interval_cases r <;> interval_cases s <;>
      first
      | exact hne rfl
      | (norm_num at hmr hms
         obtain ⟨a1, a2, a3, a4⟩ := hmr
         obtain ⟨b1, b2, b3, b4⟩ := hms
         linarith)

/-- Witness for C7: the piece of rank 0 and the piece of rank 1 do not overlap
at the concrete point (1/2, 1/2). -/
theorem parallel_reference_scenario_pieces_tile_domain_witness :
    ¬((testPieceGrid 0).memExtent ((1 : ℚ)/2, (1 : ℚ)/2)
      ∧ (testPieceGrid 1).memExtent ((1 : ℚ)/2, (1 : ℚ)/2)) :=
  parallel_reference_scenario_pieces_tile_domain.2.2.1 0 1
    (by norm_num) (by norm_num) (by norm_num) ((1 : ℚ)/2, (1 : ℚ)/2)

/-- A left fold preserves any invariant its step preserves. -/
lemma foldl_preserve {σ α : Type _} (f : σ → α → σ) (P : σ → Prop)
    (h : ∀ s a, P s → P (f s a)) :
    ∀ (l : List α) (s : σ), P s → P (l.foldl f s) := by
  intro l
  induction l with
  | nil => exact fun s hs => hs
  | cons a t ih => exact fun s hs => ih _ (h s a hs)

/-- Invariant of `_make_points`: every recorded point index is smaller than
the current number of points. -/
def pidxInRange {GP : Type} (st : List GP × List (PKey × Nat)) : Prop :=
  ∀ kv ∈ st.2, kv.2 < st.1.length

/-- One `_make_points` step keeps all recorded indices in range. -/
lemma makePointsStep_preserves {LP GP : Type} (e : LagrangeElement LP GP)
    (st : List GP × List (PKey × Nat)) (lp : LocalPoint LP)
    (h : pidxInRange st) : pidxInRange (makePointsStep e st lp) := by
  unfold makePointsStep
  dsimp only
  split
  · exact h
  · intro kv hkv
    rcases List.mem_append.mp hkv with h1 | h1
    · have := h kv h1
      simp only [List.length_append, List.length_singleton]
      omega
    · rw [List.mem_singleton] at h1
      subst h1
      simp only [List.length_append, List.length_singleton]
      omega

/-- After `_make_points`, every recorded point index is in range. -/
lemma makePoints_inRange {LP GP : Type} (inp : LagrangeMeshInput LP GP) :
    pidxInRange (makePoints inp) := by
  unfold makePoints
  refine foldl_preserve _ pidxInRange ?_ _ _ ?_
  · intro st e hst
    exact foldl_preserve _ pidxInRange
      (fun s lp hs => makePointsStep_preserves e s lp hs) _ _ hst
  · exact fun kv hkv => absurd hkv (List.not_mem_nil kv)

/-- Entries of a sub-entity vector are either the zero default or values of
the given inner-map entries. -/
lemma mem_subIndicesVector {indices : List (Nat × Nat)} {j : Nat}
    (hj : j ∈ subIndicesVector indices) :
    j = 0 ∨ ∃ lg ∈ indices, lg.2 = j := by
  unfold subIndicesVector at hj
  have main : ∀ (l : List (Nat × Nat)) (v : List Nat),
      (∀ x ∈ v, x = 0 ∨ ∃ lg ∈ indices, lg.2 = x) →
      (∀ lg ∈ l, lg ∈ indices) →
      ∀ x ∈ l.foldl (fun v lg => v.set lg.1 lg.2) v,
        x = 0 ∨ ∃ lg ∈ indices, lg.2 = x := by
    intro l
    induction l with
    | nil => exact fun v hv _ => hv
    | cons a t ih =>
      intro v hv hmem
      refine ih _ ?_ (fun lg hlg => hmem lg (List.mem_cons_of_mem a hlg))
      intro x hx
      rcases List.mem_or_eq_of_mem_set hx with h1 | h1
      · exact hv x h1
      · exact Or.inr ⟨a, hmem a (List.mem_cons_self a t), h1.symm⟩
  refine main indices (List.replicate indices.length 0) ?_ (fun lg h => h) j hj
  exact fun x hx => Or.inl (List.eq_of_mem_replicate hx)

/-- Every inner-map entry returned by `pidxGet` carries the value of some
recorded point-index entry. -/
lemma mem_pidxGet {pidx : List (PKey × Nat)} {c g : Nat} {lg : Nat × Nat}
    (h : lg ∈ pidxGet pidx c g) : ∃ kv ∈ pidx, kv.2 = lg.2 := by
  unfold pidxGet at h
  obtain ⟨e, he, heq⟩ := List.mem_map.mp h
  exact ⟨e, List.mem_of_mem_filter he, by rw [← heq]⟩

/-- A successful `contains` query implies the point-index map is non-empty. -/
lemma pidx_ne_nil_of_contains {pidx : List (PKey × Nat)} {k : PKey}
    (h : pidxContains pidx k = true) : pidx ≠ [] := by
  intro hnil
  subst hnil
  simp [pidxContains] at h

/-- Entries of the per-codim connectivity vectors are zero defaults (possible
only when the point-index map is non-empty) or recorded point indices. -/
lemma mem_codimPointsFor {LP GP : Type} {pidx : List (PKey × Nat)}
    {e : LagrangeElement LP GP} {codim : Nat} {v : List Nat}
    (hv : v ∈ codimPointsFor pidx e codim) :
    ∀ j ∈ v, (j = 0 ∧ pidx ≠ []) ∨ ∃ kv ∈ pidx, kv.2 = j := by
  unfold codimPointsFor at hv
  have main := foldl_preserve
    (fun cp sub_entity =>
      let mapped := DuneLagrangeDetail.dune_to_gfmt_sub_entity e.gtype sub_entity codim
      let g := e.subIndex sub_entity codim
      if pidxContains pidx (codim, g, 0) then
        cp.set mapped (subIndicesVector (pidxGet pidx codim g))
      else cp)
    (fun cp => ∀ w ∈ cp, ∀ j ∈ w, (j = 0 ∧ pidx ≠ []) ∨ ∃ kv ∈ pidx, kv.2 = j)
    ?_ (List.range (e.subCount codim)) (List.replicate (e.subCount codim) []) ?_
  · exact main v hv
  · intro cp se hcp
    dsimp only
    by_cases hcond : pidxContains pidx (codim, e.subIndex se codim, 0) = true
    · rw [if_pos hcond]
      intro w hw j hj
      rcases List.mem_or_eq_of_mem_set hw with h1 | h1
      · exact hcp w h1 j hj
      · subst h1
        rcases mem_subIndicesVector hj with h0 | ⟨lg, hlg, hlg2⟩
        · exact Or.inl ⟨h0, pidx_ne_nil_of_contains hcond⟩
        · obtain ⟨kv, hkv, hkv2⟩ := mem_pidxGet hlg
          exact Or.inr ⟨kv, hkv, by rw [hkv2, hlg2]⟩
    · rw [if_neg hcond]
      exact hcp
  · intro w hw j hj
    rw [List.eq_of_mem_replicate hw] at hj
    exact absurd hj (List.not_mem_nil j)

/-- Entries of a cell's connectivity are zero defaults (with a non-empty
point-index map) or recorded point indices. -/
lemma mem_cellConnectivity {LP GP : Type} {dim : Nat} {pidx : List (PKey × Nat)}
    {e : LagrangeElement LP GP} {j : Nat}
    (hj : j ∈ cellConnectivity dim pidx e) :
    (j = 0 ∧ pidx ≠ []) ∨ ∃ kv ∈ pidx, kv.2 = j := by
  unfold cellConnectivity at hj
  have main := foldl_preserve
    (fun acc codim => acc ++ (codimPointsFor pidx e codim).flatten)
    (fun acc => ∀ x ∈ acc, (x = 0 ∧ pidx ≠ []) ∨ ∃ kv ∈ pidx, kv.2 = x)
    ?_ ((List.range (dim + 1)).reverse) [] ?_
  · exact main j hj
  · intro acc c hacc x hx
    rcases List.mem_append.mp hx with h1 | h1
    · exact hacc x h1
    · obtain ⟨w, hw, hxw⟩ := List.mem_flatten.mp h1
      exact mem_codimPointsFor hw x hxw
  · exact fun x hx => absurd hx (List.not_mem_nil x)

/-- C10: after construction or any update of a DuneLagrangeMesh, every
connectivity entry is in range: for every cell index below number_of_cells,
every point index stored in its cell_points is strictly below
number_of_points, so point(j) is defined for every referenced index. -/
theorem dune_lagrange_connectivity_in_range :
    ∀ (LP GP : Type) (inp : LagrangeMeshInput LP GP) (i : Nat),
      i < (DuneLagrangeMesh.update inp).number_of_cells →
      ∀ j ∈ (DuneLagrangeMesh.update inp).cell_points i,
        j < (DuneLagrangeMesh.update inp).number_of_points
          ∧ ((DuneLagrangeMesh.update inp).point j).isSome = true := by
  intro LP GP inp i hi j hj
  have hi2 : i < (DuneLagrangeMesh.update inp).cells.length := hi
  have hcellmem : (DuneLagrangeMesh.update inp).cells.getD i []
      ∈ (DuneLagrangeMesh.update inp).cells := by
    rw [List.getD_eq_getElem _ _ hi2]
    exact List.getElem_mem hi2
  obtain ⟨e, hemem, heq⟩ := List.mem_map.mp hcellmem
  have hj2 : j ∈ cellConnectivity inp.dim (makePoints inp).2 e := by
    rw [heq]
    exact hj
  have hrange : j < (makePoints inp).1.length := by
    rcases mem_cellConnectivity hj2 with ⟨h0, hne⟩ | ⟨kv, hkv, hkv2⟩
    · obtain ⟨kv, hkv⟩ := List.exists_mem_of_ne_nil _ hne
      have := makePoints_inRange inp kv hkv
      omega
    · have := makePoints_inRange inp kv hkv
      omega
  refine ⟨hrange, ?_⟩
  have hrange2 : j < (DuneLagrangeMesh.update inp).points.length := hrange
  show ((DuneLagrangeMesh.update inp).points.get? j).isSome = true
  simp [List.get?_eq_getElem?, List.getElem?_eq_getElem hrange2]

/-- Witness for C10: on the example single-triangle input, index 1 is stored
in the first cell's connectivity and is a valid point index. -/
theorem dune_lagrange_connectivity_in_range_witness :
    1 < (DuneLagrangeMesh.update exampleLagrangeInput).number_of_points
    ∧ ((DuneLagrangeMesh.update exampleLagrangeInput).point 1).isSome = true :=
  dune_lagrange_connectivity_in_range Nat Nat exampleLagrangeInput 0
    (by decide) 1 (by decide)

end GridFormat
